import Mathlib

/-!
# Verification of the CSO Recommendations Dashboard

Shallow embedding of `src/cso_dashboard_streamlit.py`: a Streamlit dashboard
that loads a CSV of CSO budget recommendations, filters it, aggregates
status counts and percentages, renders a pie chart and table, exports the
filtered view as CSV, and shows a single-record detail panel.

Modelling conventions:
* A dataframe is a `List (Nat × Row)`: each element carries its pandas
  index label (assigned `0, 1, 2, ...` at load time and preserved by
  filtering, as pandas boolean-mask filtering preserves labels).
* A missing value (pandas `NaN`/`NaT`) is `none`; `pd.Series.isin` and
  datetime comparisons are `false` on missing values, as in pandas.
* Dates are `Nat` (an ordinal day number); pandas `Timestamp` ordering
  and inclusive-interval comparison are the `Nat` order.
* A CSV cell is a `String`; an empty cell reads back as missing
  (`pd.read_csv` default). pandas CSV quoting makes the cell content
  itself round-trip exactly, so serialization is modelled per cell.
-/

/-- One row of the dataset, after `pd.read_csv`. Fields are in the CSV
column order of the sample data: CSO Name, Agency, Date Submitted,
Status, Budget Area, Recommendation, Reason. `Option` marks cells that
may be missing (`NaN`). -/
structure Row where
  csoName : Option String
  agency : Option String
  dateSubmitted : Option Nat
  status : Option String
  budgetArea : Option String
  recommendation : Option String
  reason : Option String
deriving DecidableEq, Repr

/-- `status_options` (source line 25): the fixed ordered vocabulary used
for the categorical cast of the Status column. -/
def status_options : List String :=
  ["Submitted", "Under Review", "Adopted (Fully)", "Adopted (Partially)", "Not Adopted"]

/-- `pd.Categorical(df["Status"], categories=status_options, ordered=True)`
(source line 28): a value outside the vocabulary becomes missing (`NaN`). -/
def coerceStatus (s : Option String) : Option String :=
  s.bind fun v => if v ∈ status_options then some v else none

/-- Status standardization applied to one row (source lines 24-28): only
the Status column changes. -/
def coerceRow (r : Row) : Row :=
  { r with status := coerceStatus r.status }

/-- One raw CSV record: the seven cells of one data line, as text, in the
column order of the file. An empty string is an empty cell. -/
structure CsvRow where
  csoName : String
  agency : String
  dateSubmitted : String
  status : String
  budgetArea : String
  recommendation : String
  reason : String
deriving DecidableEq, Repr

/-- `pd.read_csv` on a text cell: an empty cell is missing (`NaN`),
anything else is the cell's text. -/
def parseCell (s : String) : Option String :=
  if s = "" then none else some s

/-- Digit character for a decimal digit value. -/
def digitChar (d : Nat) : Char := Char.ofNat (48 + d)

/-- Decimal digit value of a digit character. -/
def charDigit (c : Char) : Nat := c.toNat - 48

/-- Decimal rendering of a `Nat` (big-endian digit characters). -/
def printNatStr (n : Nat) : String :=
  if n = 0 then "0" else String.mk (((Nat.digits 10 n).map digitChar).reverse)

/-- Decimal parse of a digit string (inverse of `printNatStr` on its
image). -/
def parseNatStr (s : String) : Nat :=
  Nat.ofDigits 10 ((s.data.map charDigit).reverse)

/-- `parse_dates=["Date Submitted"]` on one cell (source lines 19/22):
an empty cell is `NaT`; otherwise the date ordinal is parsed. -/
def parseDate (s : String) : Option Nat :=
  if s = "" then none else some (parseNatStr s)

/-- `pd.read_csv(..., parse_dates=["Date Submitted"])` on one record. -/
def parseRow (c : CsvRow) : Row :=
  { csoName := parseCell c.csoName
    agency := parseCell c.agency
    dateSubmitted := parseDate c.dateSubmitted
    status := parseCell c.status
    budgetArea := parseCell c.budgetArea
    recommendation := parseCell c.recommendation
    reason := parseCell c.reason }

/-- The data loader (source lines 18-28): read the CSV, parse the date
column, standardize Status to the categorical vocabulary, and index the
rows `0, 1, 2, ...`. -/
def loadTable (rows : List CsvRow) : List (Nat × Row) :=
  (rows.map (fun c => coerceRow (parseRow c))).enum

/-- The sidebar filter configuration (source lines 31-37): the four
multiselect selections and the date-range control's value. Streamlit's
`date_input` with a 2-element default returns a list of one date while
the user is mid-selection and of two dates otherwise, hence `List Nat`. -/
structure FilterConfig where
  agency : List String
  cso : List String
  status : List String
  budgetArea : List String
  dateRange : List Nat
deriving Repr

/-- `series.isin(values)` on one cell: membership of the cell's value in
the selection; `false` on a missing value (pandas semantics). -/
def isinOpt (o : Option String) (l : List String) : Bool :=
  match o with
  | none => false
  | some v => v ∈ l

/-- `(ts >= start) & (ts <= end)` on one cell: inclusive interval test;
`false` on `NaT` (pandas semantics). -/
def inDateRange (o : Option Nat) (lo hi : Nat) : Bool :=
  match o with
  | none => false
  | some t => lo ≤ t && t ≤ hi

/-- The filter engine (source lines 39-48): start from a copy of the
loaded table and successively restrict by each non-empty selection; the
date restriction applies only when the range control supplies exactly
two endpoints (`if date_range and len(date_range) == 2`). -/
def filtered_df (df : List (Nat × Row)) (cfg : FilterConfig) : List (Nat × Row) :=
  let d0 := df
  let d1 := if cfg.agency.isEmpty then d0 else
    d0.filter fun r => isinOpt r.2.agency cfg.agency
  let d2 := if cfg.cso.isEmpty then d1 else
    d1.filter fun r => isinOpt r.2.csoName cfg.cso
  let d3 := if cfg.status.isEmpty then d2 else
    d2.filter fun r => isinOpt r.2.status cfg.status
  let d4 := if cfg.budgetArea.isEmpty then d3 else
    d3.filter fun r => isinOpt r.2.budgetArea cfg.budgetArea
  match cfg.dateRange with
  | [lo, hi] => d4.filter fun r => inDateRange r.2.dateSubmitted lo hi
  | _ => d4

/-- Spec-side predicate (section 4.2 / section 8 of the spec, for the
refinement claim C1): a row passes when, for each non-empty selection,
its field value is a member of that set; when two date endpoints are
given, its Date Submitted lies in the inclusive interval; an empty
selector imposes no restriction. -/
def satisfiesFilters_spec (cfg : FilterConfig) (r : Row) : Bool :=
  (cfg.agency.isEmpty || isinOpt r.agency cfg.agency) &&
  (cfg.cso.isEmpty || isinOpt r.csoName cfg.cso) &&
  (cfg.status.isEmpty || isinOpt r.status cfg.status) &&
  (cfg.budgetArea.isEmpty || isinOpt r.budgetArea cfg.budgetArea) &&
  (match cfg.dateRange with
   | [lo, hi] => inDateRange r.dateSubmitted lo hi
   | _ => true)

/-- Membership characterization of the filter engine, shared by several
results below. -/
theorem mem_filtered_df (df : List (Nat × Row)) (cfg : FilterConfig)
    (p : Nat × Row) :
    p ∈ filtered_df df cfg ↔ p ∈ df ∧ satisfiesFilters_spec cfg p.2 = true := by
  unfold filtered_df satisfiesFilters_spec
  rcases hD : cfg.dateRange with _ | ⟨lo, _ | ⟨hi, _ | _⟩⟩ <;>
    cases hA : cfg.agency.isEmpty <;>
    cases hC : cfg.cso.isEmpty <;>
    cases hS : cfg.status.isEmpty <;>
    cases hB : cfg.budgetArea.isEmpty <;>
    simp [List.mem_filter, and_assoc] <;>
    tauto

/-- C1: The filtered view consists of exactly the rows of the loaded
table that satisfy the conjunction of the active filter predicates:
membership in the filtered view is membership in the table AND the
spec's combined predicate (non-empty set selections restrict to set
membership of the field value, a two-endpoint date range restricts to
the inclusive interval, an empty selector imposes no restriction). -/
theorem c1_filter_and_semantics (df : List (Nat × Row)) (cfg : FilterConfig)
    (p : Nat × Row) :
    p ∈ filtered_df df cfg ↔ p ∈ df ∧ satisfiesFilters_spec cfg p.2 = true :=
  mem_filtered_df df cfg p

/-- `total = len(filtered_df)` (source line 52). -/
def total (d : List (Nat × Row)) : Nat := d.length

/-- `(filtered_df["Status"] == s).sum()` (source lines 53-55): the number
of rows whose Status equals `s`; a missing Status compares unequal. -/
def countStatusEq (d : List (Nat × Row)) (s : String) : Nat :=
  (d.filter fun r => r.2.status = some s).length

/-- `adopted_full` (source line 53). -/
def adopted_full (d : List (Nat × Row)) : Nat := countStatusEq d "Adopted (Fully)"

/-- The partially-adopted count of source line 54. -/
def adoptedPartial (d : List (Nat × Row)) : Nat := countStatusEq d "Adopted (Partially)"

/-- `not_adopted` (source line 55). -/
def not_adopted (d : List (Nat × Row)) : Nat := countStatusEq d "Not Adopted"

/-- `(adopted_full/total*100) if total else 0` (source line 59). -/
def pctFully (d : List (Nat × Row)) : ℚ :=
  if total d = 0 then 0 else (adopted_full d : ℚ) / (total d : ℚ) * 100

/-- `(adoptedPartial/total*100) if total else 0` (source line 60). -/
def pctPartially (d : List (Nat × Row)) : ℚ :=
  if total d = 0 then 0 else (adoptedPartial d : ℚ) / (total d : ℚ) * 100

/-- `(not_adopted/total*100) if total else 0` (source line 61). -/
def pctNotAdopted (d : List (Nat × Row)) : ℚ :=
  if total d = 0 then 0 else (not_adopted d : ℚ) / (total d : ℚ) * 100

/-- The `:.1f` display of a percentage, as the rational number of tenths
it rounds to (one decimal place). -/
def fmt1 (q : ℚ) : ℚ := (round (q * 10) : ℤ) / 10

/-- `filtered_df["Status"].value_counts()` (source line 65), modelled as
the count of each Status value observed in the view (order of entries
and the categorical's zero-count entries are immaterial here, since the
code immediately reindexes by `status_options` with `fill_value=0`). -/
def value_counts (d : List (Nat × Row)) : List (String × Nat) :=
  (d.filterMap fun r => r.2.status).dedup.map fun s => (s, countStatusEq d s)

/-- `.reindex(keys, fill_value=0)` (source line 65): look each key up in
the counts, defaulting to 0 for an absent key. -/
def reindex (m : List (String × Nat)) (keys : List String) : List (String × Nat) :=
  keys.map fun k => (k, (((m.find? fun p => p.1 = k).map Prod.snd).getD 0))

/-- `status_counts` (source line 65). -/
def status_counts (d : List (Nat × Row)) : List (String × Nat) :=
  reindex (value_counts d) status_options

/-- The pie chart (source lines 64-71): rendered only when `total > 0`;
`none` models the absence of the chart, `some` carries the
(category, count) pairs passed to `px.pie`. -/
def pieChart (d : List (Nat × Row)) : Option (List (String × Nat)) :=
  if total d > 0 then some (status_counts d) else none

/-- `st.selectbox(options=filtered_df.index, ...)` (source lines
103-107): Streamlit preselects the first option; with no options it
returns `None`. -/
def selectboxFirst (options : List Nat) : Option Nat := options.head?

/-- `filtered_df.loc[selected_idx]` (source line 108): label lookup.
`loc[None]` raises (KeyError); a missing label raises too. -/
def locLookup (d : List (Nat × Row)) (idx : Option Nat) : Except String Row :=
  match idx with
  | none => Except.error "KeyError: None"
  | some i =>
    match d.find? fun p => p.1 = i with
    | some p => Except.ok p.2
    | none => Except.error "KeyError"

/-- The detail-view record `rec` (source lines 103-108): the selector's
options are the filtered view's index labels; the chosen label is looked
up with `.loc`. -/
def detailRecord (d : List (Nat × Row)) : Except String Row :=
  locLookup d (selectboxFirst (d.map Prod.fst))

/-- The Reason line of the detail view (source line 113):
`rec['Reason'] if pd.notnull(rec['Reason']) and rec['Reason'] else '(none)'`.
A missing Reason fails `pd.notnull`; an empty string is falsy. -/
def displayReason (reason : Option String) : String :=
  match reason with
  | some s => if s = "" then "(none)" else s
  | none => "(none)"

/-- `buffer = io.StringIO(); filtered_df.to_csv(buffer, index=False)`
(source lines 91-92) on one row: each cell is written as its text, a
missing cell as the empty cell, the date as its decimal ordinal; the
index label is not written (`index=False`). -/
def exportRow (r : Row) : CsvRow :=
  { csoName := r.csoName.getD ""
    agency := r.agency.getD ""
    dateSubmitted := (r.dateSubmitted.map printNatStr).getD ""
    status := r.status.getD ""
    budgetArea := r.budgetArea.getD ""
    recommendation := r.recommendation.getD ""
    reason := r.reason.getD "" }

/-- The CSV export of the filtered view (source lines 90-98). -/
def exportTable (d : List (Nat × Row)) : List CsvRow :=
  d.map fun p => exportRow p.2

/-- `file_name="filtered_recommendations.csv"` (source line 96). -/
def exportFileName : String := "filtered_recommendations.csv"

/-- `mime="text/csv"` (source line 97). -/
def exportMime : String := "text/csv"

/-- The filtered view is a sublist of the input table (shared helper). -/
theorem filtered_df_sublist
    (df : List (Nat × Row)) (cfg : FilterConfig) :
    (filtered_df df cfg).Sublist df := by
  have step : ∀ (b : Bool) (q : (Nat × Row) → Bool) (l : List (Nat × Row)),
      (if b then l else l.filter q).Sublist l := by
    intro b q l
    cases b <;> simp [List.filter_sublist]
  have last : ∀ (dr : List Nat) (l : List (Nat × Row)),
      (match dr with
       | [lo, hi] => l.filter fun (r : Nat × Row) => inDateRange r.2.dateSubmitted lo hi
       | _ => l).Sublist l := by
    intro dr l
    rcases dr with _ | ⟨lo, _ | ⟨hi, _ | _⟩⟩ <;> simp [List.filter_sublist]
  exact .trans (last _ _)
    (.trans (step _ _ _) (.trans (step _ _ _) (.trans (step _ _ _) (step _ _ _))))

/-- C9: Filtering preserves relative row order and the original index
labels: the filtered view is a sublist of the loaded table, as a list of
(label, row) pairs — no reordering, no re-indexing. -/
theorem c9_filter_preserves_order_and_labels
    (df : List (Nat × Row)) (cfg : FilterConfig) :
    (filtered_df df cfg).Sublist df :=
  filtered_df_sublist df cfg

/-- C10: When the date-range control supplies fewer than two endpoints,
the date filter is skipped entirely: the result equals filtering with no
date range at all. -/
theorem c10_short_date_range_not_applied
    (df : List (Nat × Row)) (cfg : FilterConfig)
    (h : cfg.dateRange.length < 2) :
    filtered_df df cfg = filtered_df df { cfg with dateRange := [] } := by
  unfold filtered_df
  rcases hD : cfg.dateRange with _ | ⟨lo, _ | ⟨hi, rest⟩⟩
  · rfl
  · rfl
  · rw [hD] at h
    simp only [List.length_cons] at h
    omega

/-- C10 witness: a one-endpoint range on a concrete one-row table leaves
the view unrestricted by Date Submitted. -/
theorem c10_short_date_range_not_applied_witness :
    filtered_df [(0, ⟨some "A", some "B", some 5, some "Submitted", some "C", some "D", none⟩)]
        ⟨[], [], [], [], [7]⟩ =
      filtered_df [(0, ⟨some "A", some "B", some 5, some "Submitted", some "C", some "D", none⟩)]
        ⟨[], [], [], [], []⟩ :=
  c10_short_date_range_not_applied _ _ (by decide)

/-- C8: The detail view's Reason line shows the placeholder "(none)"
exactly when Reason is missing or the empty string, and shows the value
itself when it is a non-empty value. -/
theorem c8_reason_placeholder :
    displayReason none = "(none)" ∧ displayReason (some "") = "(none)" ∧
      ∀ s : String, s ≠ "" → displayReason (some s) = s := by
  refine ⟨rfl, rfl, fun s hs => ?_⟩
  simp [displayReason, hs]

/-- C8 witness: concrete evaluations, including a non-empty Reason. -/
theorem c8_reason_placeholder_witness :
    displayReason (some "budget cut") = "budget cut" :=
  c8_reason_placeholder.2.2 "budget cut" (by decide)

/-- The no-filter configuration: every selector empty, no date range. -/
def noFilters : FilterConfig := ⟨[], [], [], [], []⟩

/-- The three-row input of the spec's first scenario: statuses
Adopted (Fully), Not Adopted, Submitted. -/
def scenarioCsv : List CsvRow :=
  [⟨"CSO A", "Agency A", "1", "Adopted (Fully)", "Health", "Rec one", ""⟩,
   ⟨"CSO B", "Agency B", "2", "Not Adopted", "Education", "Rec two", ""⟩,
   ⟨"CSO C", "Agency C", "3", "Submitted", "Roads", "Rec three", ""⟩]

/-- The scenario's filtered view: scenario table, no filters. -/
def scenarioView : List (Nat × Row) := filtered_df (loadTable scenarioCsv) noFilters

/-- A one-row table used for zero-match filtering. -/
def oneRowCsv : List CsvRow :=
  [⟨"CSO X", "Dept of Health", "3", "Submitted", "Health", "Increase budget", ""⟩]

/-- An Agency selection matching no row of `oneRowCsv`. -/
def zeroMatchCfg : FilterConfig := ⟨["Dept of Finance"], [], [], [], []⟩

/-- The zero-row filtered view of the spec's second scenario. -/
def emptyView : List (Nat × Row) := filtered_df (loadTable oneRowCsv) zeroMatchCfg

/-- A one-row table whose Status value is outside the vocabulary. -/
def bogusCsv : List CsvRow :=
  [⟨"CSO Y", "Dept of Health", "4", "Rejected", "Health", "Some rec", ""⟩]

/-- Its filtered view under no filters. -/
def bogusView : List (Nat × Row) := filtered_df (loadTable bogusCsv) noFilters

/-- The sum of the five per-category counts of `status_counts`. -/
def statusCountsSum (d : List (Nat × Row)) : Nat :=
  ((status_counts d).map Prod.snd).sum

/-- The `.reindex` lookup over `value_counts` recovers the plain count of
each status value (0 for an absent one). -/
theorem lookup_value_counts (d : List (Nat × Row)) (s : String) :
    ((((value_counts d).find? fun p => p.1 = s).map Prod.snd).getD 0) = countStatusEq d s := by
  unfold value_counts
  rw [List.find?_map]
  rcases hf : ((d.filterMap fun r => r.2.status).dedup.find?
      (((fun p : String × Nat => decide (p.1 = s))) ∘ fun t => (t, countStatusEq d t))) with _ | t
  · simp only [hf, Option.map_none', Option.getD_none]
    rw [List.find?_eq_none] at hf
    have hs : ∀ r ∈ d, ¬ r.2.status = some s := by
      intro r hr hcon
      exact hf s (List.mem_dedup.2 (List.mem_filterMap.2 ⟨r, hr, hcon⟩)) (by simp)
    unfold countStatusEq
    symm
    rw [List.length_eq_zero, List.filter_eq_nil_iff]
    intro a ha
    simpa using hs a ha
  · have ht : t = s := by simpa using List.find?_some hf
    simp [hf, ht]

/-- `status_counts` lists exactly the five vocabulary categories in
their defined order, each with its row count (0 when absent). -/
theorem status_counts_eq (d : List (Nat × Row)) :
    status_counts d = status_options.map fun s => (s, countStatusEq d s) := by
  unfold status_counts reindex
  refine List.map_congr_left fun s _ => ?_
  rw [lookup_value_counts]

/-- C4 counterexample: an Agency filter matching zero rows yields
`total = 0` and the pie chart is not rendered at all (`px.pie` is behind
`if total > 0`), contradicting "the chart still renders five zero-valued
categories". -/
theorem c4_counterexample_no_chart_when_empty :
    total emptyView = 0 ∧ pieChart emptyView = none := by decide

/-- C4 (amended): whenever the filtered view is non-empty, the pie chart
is rendered with all five status categories present, in the defined
status order, a category absent from the view appearing with count 0;
when the view is empty, no chart is rendered. -/
theorem c4_chart_five_categories (d : List (Nat × Row)) (h : 0 < total d) :
    pieChart d = some (status_options.map fun s => (s, countStatusEq d s)) := by
  unfold pieChart
  rw [if_pos h, status_counts_eq]

/-- C4 witness: the chart on the loaded one-row table lists the five
categories with their counts. -/
theorem c4_chart_five_categories_witness :
    pieChart (loadTable oneRowCsv) =
      some (status_options.map fun s => (s, countStatusEq (loadTable oneRowCsv) s)) :=
  c4_chart_five_categories (loadTable oneRowCsv) (by decide)

/-- Count of a status over a cons cell. -/
theorem countStatusEq_cons (x : Nat × Row) (d : List (Nat × Row)) (s : String) :
    countStatusEq (x :: d) s = (if x.2.status = some s then 1 else 0) + countStatusEq d s := by
  by_cases h : x.2.status = some s <;>
    simp [countStatusEq, List.filter_cons, h, Nat.add_comm]

/-- A value of the vocabulary is matched by exactly one of the five
category indicators. -/
theorem indicator_sum (s0 : String) (hs : s0 ∈ status_options) :
    (status_options.map fun s => if s0 = s then (1 : Nat) else 0).sum = 1 := by
  fin_cases hs <;> decide

/-- When every row's Status belongs to the vocabulary, the five counts
sum to the number of rows. -/
theorem sum_counts_of_valid (d : List (Nat × Row))
    (h : ∀ p ∈ d, ∃ s ∈ status_options, p.2.status = some s) :
    (status_options.map fun s => countStatusEq d s).sum = d.length := by
  induction d with
  | nil => decide
  | cons x d ih =>
    obtain ⟨s0, hs0, hx⟩ := h x (List.mem_cons_self x d)
    have hrec := ih fun p hp => h p (List.mem_cons_of_mem _ hp)
    have hmap : (status_options.map fun s => countStatusEq (x :: d) s) =
        status_options.map fun s => ((if s0 = s then 1 else 0) + countStatusEq d s) := by
      refine List.map_congr_left fun s _ => ?_
      rw [countStatusEq_cons, hx]
      simp
    rw [hmap, List.sum_map_add, hrec, indicator_sum s0 hs0, List.length_cons, Nat.add_comm]

/-- Every row of a loaded-then-filtered table whose raw Status cell was
in the vocabulary carries a vocabulary Status. -/
theorem filtered_status_valid (rows : List CsvRow) (cfg : FilterConfig)
    (h : ∀ c ∈ rows, c.status ∈ status_options) :
    ∀ p ∈ filtered_df (loadTable rows) cfg, ∃ s ∈ status_options, p.2.status = some s := by
  intro p hp
  have hp' : p ∈ loadTable rows := (filtered_df_sublist _ _).subset hp
  have hp2 : p.2 ∈ rows.map fun c => coerceRow (parseRow c) :=
    List.enumFrom_map_snd 0 (rows.map fun c => coerceRow (parseRow c)) ▸
      List.mem_map_of_mem Prod.snd hp'
  obtain ⟨c, hc, hpc⟩ := List.mem_map.1 hp2
  have hcs := h c hc
  have hne : c.status ≠ "" := by
    intro he
    rw [he] at hcs
    exact absurd hcs (by decide)
  refine ⟨c.status, hcs, ?_⟩
  rw [← hpc]
  simp [coerceRow, parseRow, coerceStatus, parseCell, hne, hcs]

/-- C3 counterexample: a loaded row whose Status value ("Rejected") is
outside the vocabulary is counted in the total but in none of the five
categories, so the five counts do not sum to the total. -/
theorem c3_counterexample_sum_ne_total :
    ¬ statusCountsSum bogusView = total bogusView := by decide

/-- C3 (amended): the sum of the five per-category counts equals the
number of rows of the filtered view whose Status is in the vocabulary;
in particular it equals the total row count whenever every input row's
Status value belongs to the vocabulary (it falls short of the total
exactly by the rows whose Status was unrecognized, hence missing). -/
theorem c3_sum_counts_eq_total (rows : List CsvRow) (cfg : FilterConfig)
    (h : ∀ c ∈ rows, c.status ∈ status_options) :
    statusCountsSum (filtered_df (loadTable rows) cfg) =
      total (filtered_df (loadTable rows) cfg) := by
  unfold statusCountsSum total
  rw [status_counts_eq, List.map_map]
  exact sum_counts_of_valid _ (filtered_status_valid rows cfg h)

/-- C3 witness: on the scenario table (all statuses in the vocabulary)
the five counts sum to the total. -/
theorem c3_sum_counts_eq_total_witness :
    statusCountsSum (filtered_df (loadTable scenarioCsv) noFilters) =
      total (filtered_df (loadTable scenarioCsv) noFilters) :=
  c3_sum_counts_eq_total scenarioCsv noFilters (by decide)

/-- C2: Each reported percentage equals the count of rows with that
status divided by the total times 100; when the total is 0 every
reported percentage is 0 (the guard `if total else 0` avoids the
division); and on the spec's three-row scenario with no filters the
one-decimal displays are total=3, %Fully=33.3, %Not Adopted=33.3,
%Partially=0.0. -/
theorem c2_percentages :
    (∀ d : List (Nat × Row), total d ≠ 0 →
      pctFully d = (countStatusEq d "Adopted (Fully)" : ℚ) / (total d : ℚ) * 100 ∧
      pctPartially d = (countStatusEq d "Adopted (Partially)" : ℚ) / (total d : ℚ) * 100 ∧
      pctNotAdopted d = (countStatusEq d "Not Adopted" : ℚ) / (total d : ℚ) * 100) ∧
    (∀ d : List (Nat × Row), total d = 0 →
      pctFully d = 0 ∧ pctPartially d = 0 ∧ pctNotAdopted d = 0) ∧
    (total scenarioView = 3 ∧
      fmt1 (pctFully scenarioView) = 333 / 10 ∧
      fmt1 (pctNotAdopted scenarioView) = 333 / 10 ∧
      fmt1 (pctPartially scenarioView) = 0) := by
  refine ⟨fun d h => ?_, fun d h => ?_, ?_, ?_, ?_, ?_⟩
  · exact ⟨by simp [pctFully, adopted_full, h], by simp [pctPartially, adoptedPartial, h],
      by simp [pctNotAdopted, not_adopted, h]⟩
  · exact ⟨by simp [pctFully, h], by simp [pctPartially, h], by simp [pctNotAdopted, h]⟩
  · decide
  · have ha : adopted_full scenarioView = 1 := by decide
    have ht : total scenarioView = 3 := by decide
    have h1 : pctFully scenarioView = 100 / 3 := by
      unfold pctFully
      rw [ha, ht]
      norm_num
    unfold fmt1
    rw [h1, round_eq]
    norm_num
  · have ha : not_adopted scenarioView = 1 := by decide
    have ht : total scenarioView = 3 := by decide
    have h1 : pctNotAdopted scenarioView = 100 / 3 := by
      unfold pctNotAdopted
      rw [ha, ht]
      norm_num
    unfold fmt1
    rw [h1, round_eq]
    norm_num
  · have ha : adoptedPartial scenarioView = 0 := by decide
    have ht : total scenarioView = 3 := by decide
    have h1 : pctPartially scenarioView = 0 := by
      unfold pctPartially
      rw [ha, ht]
      norm_num
    unfold fmt1
    rw [h1]
    norm_num

/-- C2 witness: the general parts applied at the scenario view and at
the empty view. -/
theorem c2_percentages_witness :
    pctFully scenarioView =
      (countStatusEq scenarioView "Adopted (Fully)" : ℚ) / (total scenarioView : ℚ) * 100 ∧
    pctFully [] = 0 :=
  ⟨(c2_percentages.1 scenarioView (by decide)).1, (c2_percentages.2.1 [] rfl).1⟩

/-- C5: On a filter configuration matching zero rows the table part is
an empty view and the detail selector has no options (`selectbox`
returns `None`), but the subsequent `filtered_df.loc[selected_idx]`
lookup then raises instead of rendering gracefully: the code evaluated
at the failing input. -/
theorem c5_empty_view_detail_lookup_raises :
    emptyView = [] ∧
      selectboxFirst (emptyView.map Prod.fst) = none ∧
      detailRecord emptyView = Except.error "KeyError: None" :=
  ⟨rfl, rfl, rfl⟩

/-- Any coerced Status value is missing or a vocabulary member. -/
theorem coerceStatus_valid (o : Option String) :
    coerceStatus o = none ∨ ∃ s ∈ status_options, coerceStatus o = some s := by
  rcases o with _ | v
  · exact Or.inl rfl
  · by_cases hv : v ∈ status_options
    · exact Or.inr ⟨v, hv, by simp [coerceStatus, hv]⟩
    · exact Or.inl (by simp [coerceStatus, hv])

/-- Every loaded row's Status is missing or a vocabulary member. -/
theorem loadTable_status (rows : List CsvRow) :
    ∀ p ∈ loadTable rows, p.2.status = none ∨ ∃ s ∈ status_options, p.2.status = some s := by
  intro p hp
  have hp2 : p.2 ∈ rows.map fun c => coerceRow (parseRow c) :=
    List.enumFrom_map_snd 0 (rows.map fun c => coerceRow (parseRow c)) ▸
      List.mem_map_of_mem Prod.snd hp
  obtain ⟨c, hc, hpc⟩ := List.mem_map.1 hp2
  rw [← hpc]
  exact coerceStatus_valid (parseRow c).status

/-- C7: After loading, every row's Status is restricted to the
five-member vocabulary or missing; a value outside the vocabulary
becomes missing; the invariant is preserved by every filtering
operation; and a missing Status never matches an active status-filter
predicate (a row with missing Status never survives a non-empty Status
selection). -/
theorem c7_status_vocabulary :
    (∀ v : String, v ∉ status_options → coerceStatus (some v) = none) ∧
    (∀ rows : List CsvRow, ∀ p ∈ loadTable rows,
      p.2.status = none ∨ ∃ s ∈ status_options, p.2.status = some s) ∧
    (∀ (rows : List CsvRow) (cfg : FilterConfig),
      ∀ p ∈ filtered_df (loadTable rows) cfg,
      p.2.status = none ∨ ∃ s ∈ status_options, p.2.status = some s) ∧
    (∀ (df : List (Nat × Row)) (cfg : FilterConfig) (p : Nat × Row),
      cfg.status ≠ [] → p ∈ filtered_df df cfg → p.2.status ≠ none) := by
  refine ⟨fun v hv => by simp [coerceStatus, hv], loadTable_status, ?_, ?_⟩
  · intro rows cfg p hp
    exact loadTable_status rows p ((filtered_df_sublist _ _).subset hp)
  · intro df cfg p hne hp h0
    have hsat := ((mem_filtered_df df cfg p).1 hp).2
    have hempty : cfg.status.isEmpty = false := by
      cases h : cfg.status
      · exact absurd h hne
      · rfl
    unfold satisfiesFilters_spec at hsat
    rw [h0] at hsat
    simp [hempty, isinOpt] at hsat

/-- C7 witness: the out-of-vocabulary value "Rejected" becomes missing,
and the loaded bogus row indeed carries a missing-or-vocabulary
Status. -/
theorem c7_status_vocabulary_witness :
    coerceStatus (some "Rejected") = none ∧
      (((0, ⟨some "CSO Y", some "Dept of Health", some 4, none, some "Health",
          some "Some rec", none⟩) : Nat × Row).2.status = none ∨
        ∃ s ∈ status_options,
          (((0, ⟨some "CSO Y", some "Dept of Health", some 4, none, some "Health",
            some "Some rec", none⟩) : Nat × Row)).2.status = some s) :=
  ⟨c7_status_vocabulary.1 "Rejected" (by decide),
   c7_status_vocabulary.2.1 bogusCsv _ (by decide)⟩

/-- `map Prod.snd` undoes the loader's `enum` indexing. -/
theorem enum_map_snd (l : List α) : l.enum.map Prod.snd = l :=
  List.enumFrom_map_snd 0 l

/-- Digit encode/decode round-trip on decimal digit values. -/
theorem charDigit_digitChar (d : Nat) (hd : d < 10) : charDigit (digitChar d) = d := by
  interval_cases d <;> decide

/-- Decimal print/parse round-trip. -/
theorem parseNatStr_printNatStr (n : Nat) : parseNatStr (printNatStr n) = n := by
  by_cases h0 : n = 0
  · subst h0
    decide
  · unfold printNatStr parseNatStr
    rw [if_neg h0]
    show Nat.ofDigits 10 (((((Nat.digits 10 n).map digitChar).reverse).map charDigit).reverse) = n
    rw [List.map_reverse, List.reverse_reverse, List.map_map]
    have hmap : (Nat.digits 10 n).map (charDigit ∘ digitChar) = (Nat.digits 10 n).map id := by
      refine List.map_congr_left fun d hd => ?_
      exact charDigit_digitChar d (Nat.digits_lt_base (by norm_num) hd)
    rw [hmap, List.map_id]
    exact Nat.ofDigits_digits 10 n

/-- The decimal rendering of a date is never the empty cell. -/
theorem printNatStr_ne_empty (n : Nat) : printNatStr n ≠ "" := by
  unfold printNatStr
  split
  · decide
  · rename_i h0
    intro he
    have hdata : (((Nat.digits 10 n).map digitChar).reverse) = [] := congrArg String.data he
    simp only [List.reverse_eq_nil_iff, List.map_eq_nil_iff] at hdata
    exact (Nat.digits_ne_nil_iff_ne_zero.2 h0) hdata

/-- Writing a date cell and re-parsing it restores the date (also when
missing: the empty cell reads back as `NaT`). -/
theorem parseDate_print (o : Option Nat) :
    parseDate ((o.map printNatStr).getD "") = o := by
  rcases o with _ | n
  · rfl
  · simp only [Option.map_some', Option.getD_some]
    unfold parseDate
    rw [if_neg (printNatStr_ne_empty n), parseNatStr_printNatStr]

/-- Writing a text cell and re-parsing it restores it, provided the
value is not the empty string (which pandas cannot distinguish from a
missing cell — and which `pd.read_csv` never produces). -/
theorem parseCell_getD (o : Option String) (h : o ≠ some "") :
    parseCell (o.getD "") = o := by
  rcases o with _ | v
  · rfl
  · have hv : v ≠ "" := fun he => h (by rw [he])
    simp [parseCell, hv]

/-- `pd.read_csv` never yields an empty-string cell value. -/
theorem parseCell_ne_some_empty (s : String) : parseCell s ≠ some "" := by
  unfold parseCell
  split
  · simp
  · rename_i h
    intro hc
    rw [Option.some.injEq] at hc
    exact h hc

/-- Rows in the image of the loader: no text field holds the empty
string, and Status is missing or in the vocabulary. -/
def CanonicalRow (r : Row) : Prop :=
  r.csoName ≠ some "" ∧ r.agency ≠ some "" ∧ r.budgetArea ≠ some "" ∧
  r.recommendation ≠ some "" ∧ r.reason ≠ some "" ∧
  (r.status = none ∨ ∃ s ∈ status_options, r.status = some s)

/-- Every loaded row is canonical. -/
theorem loadRow_canonical (c : CsvRow) : CanonicalRow (coerceRow (parseRow c)) := by
  refine ⟨parseCell_ne_some_empty _, parseCell_ne_some_empty _, parseCell_ne_some_empty _,
    parseCell_ne_some_empty _, parseCell_ne_some_empty _, ?_⟩
  exact coerceStatus_valid (parseRow c).status

/-- Writing the Status cell and re-loading it (parse + categorical
coercion) restores it, for a missing-or-vocabulary Status. -/
theorem status_roundtrip (st : Option String)
    (h : st = none ∨ ∃ s ∈ status_options, st = some s) :
    coerceStatus (parseCell (st.getD "")) = st := by
  rcases h with rfl | ⟨s, hs, rfl⟩
  · rfl
  · have hne : s ≠ "" := by
      intro he
      rw [he] at hs
      exact absurd hs (by decide)
    simp [parseCell, hne, coerceStatus, hs]

/-- One-row round-trip: exporting a canonical row and re-loading it
restores the row exactly. -/
theorem loadRow_exportRow (r : Row) (h : CanonicalRow r) :
    coerceRow (parseRow (exportRow r)) = r := by
  obtain ⟨h1, h2, h3, h4, h5, h6⟩ := h
  rcases r with ⟨cn, ag, ds, st, ba, rec, rs⟩
  unfold exportRow parseRow coerceRow
  simp only [Row.mk.injEq]
  exact ⟨parseCell_getD _ h1, parseCell_getD _ h2, parseDate_print ds,
    status_roundtrip st h6, parseCell_getD _ h3, parseCell_getD _ h4, parseCell_getD _ h5⟩

/-- C6: Exporting the filtered view to CSV (file name
`filtered_recommendations.csv`, MIME `text/csv`, columns written in the
unchanged record order) and re-loading the CSV through the data loader
yields a table with identical row content in the same order (the loader
re-assigns fresh positional index labels, which `to_csv(index=False)`
does not write). -/
theorem c6_export_reload_roundtrip (rows : List CsvRow) (cfg : FilterConfig) :
    (loadTable (exportTable (filtered_df (loadTable rows) cfg))).map Prod.snd =
      (filtered_df (loadTable rows) cfg).map Prod.snd ∧
    exportFileName = "filtered_recommendations.csv" ∧ exportMime = "text/csv" := by
  refine ⟨?_, rfl, rfl⟩
  have hcanon : ∀ p ∈ filtered_df (loadTable rows) cfg, CanonicalRow p.2 := by
    intro p hp
    have hp' : p ∈ loadTable rows := (filtered_df_sublist _ _).subset hp
    have hp2 : p.2 ∈ rows.map fun c => coerceRow (parseRow c) :=
      List.enumFrom_map_snd 0 (rows.map fun c => coerceRow (parseRow c)) ▸
        List.mem_map_of_mem Prod.snd hp'
    obtain ⟨c, hc, hpc⟩ := List.mem_map.1 hp2
    rw [← hpc]
    exact loadRow_canonical c
  unfold loadTable exportTable
  rw [enum_map_snd, List.map_map]
  refine List.map_congr_left fun p hp => ?_
  exact loadRow_exportRow p.2 (hcanon p hp)
